import Mathlib

/-!
Verification of the transaction-lifecycle and exchange-client components of the
`my_first_web3_software` repository, as a shallow embedding in Lean.

Conventions of the embedding:
* Python integers are `Nat`/`Int`; Python numeric expressions that mix ints with
  the float literals `1.05`, `0.95`, `0.001` and with the configured
  `GAS_PRICE_MULTIPLIER` are modelled with exact rational arithmetic (`ℚ`);
  `int(x)` is truncation toward zero (`pyInt`), `round(x, 0)` is rounding half
  to even (Python banker rounding).
* Python strings are `List Char` (`PyStr`); `str.upper` is `pyUpper`;
  `s.encode("utf-8")` is `utf8Encode`.
* `hashlib.sha256`, `hmac.new(..., sha256).digest()` and `base64.b64encode`
  are implemented concretely (`sha256`, `hmacSha256`, `base64encode`).
* Network reads (`gas_price`, `fee_history`, `get_transaction_receipt`,
  `allowance`, balances) are inputs of the embedded functions; fallible code
  returns `Except`/`Option`.
-/

/-- Python `int(x)` on a rational: truncation toward zero. -/
def pyInt (q : ℚ) : ℤ := q.num.tdiv q.den

/-- Executable floor of a rational (`Int.fdiv` of numerator by denominator). -/
def ratFloor (q : ℚ) : ℤ := q.num.fdiv q.den

/-- Python `round(s / d, 0)` for natural `s`, `d` (`d ≠ 0`), computed on the
exact ratio: round half to even. -/
def pyRoundDiv (s d : ℕ) : ℕ :=
  let q := s / d
  let r := s % d
  if 2 * r < d then q
  else if d < 2 * r then q + 1
  else if q % 2 = 0 then q else q + 1

theorem ratFloor_eq_floor (q : ℚ) : ratFloor q = ⌊q⌋ := by
  rw [Rat.floor_def, ratFloor, Int.fdiv_eq_ediv]
  exact_mod_cast Int.natCast_nonneg q.den

theorem pyInt_eq_floor (q : ℚ) (h : 0 ≤ q) : pyInt q = ⌊q⌋ := by
  rw [Rat.floor_def, pyInt, Int.tdiv_eq_ediv]
  · exact Rat.num_nonneg.mpr h
  · exact_mod_cast Int.natCast_nonneg q.den

theorem pyInt_natCast (n : ℕ) : pyInt (n : ℚ) = n := by
  rw [pyInt_eq_floor _ (by positivity)]
  exact Int.floor_natCast n

namespace Web3Client

/-! ### Fee calculator (`Web3Client.get_priority_fee`, `Web3Client.prepare_transaction`) -/

/-- Shallow embedding of `Web3Client.get_priority_fee`.
The input is the list of 20th-percentile rewards (`fee[0]`) of the last 5
blocks returned by `eth.fee_history(5, "latest", [20.0])`.  The source keeps
the non-zero entries, divides their sum by `max(len, 1)` and rounds:
`int(round(sum(non_empty) / divisor_priority, 0))`. -/
def get_priority_fee (rewards : List ℕ) : ℕ :=
  let non_empty_block_priority_fees := rewards.filter (fun fee => fee ≠ 0)
  let divisor_priority := max non_empty_block_priority_fees.length 1
  pyRoundDiv non_empty_block_priority_fees.sum divisor_priority

/-- The EIP-1559 fields set by `Web3Client.prepare_transaction`. -/
structure Eip1559Fees where
  maxFeePerGas : ℤ
  maxPriorityFeePerGas : ℤ
  txType : ℕ
  deriving Repr, DecidableEq

/-- Shallow embedding of the EIP-1559 branch of `Web3Client.prepare_transaction`:
`max_fee_per_gas = int(base_fee + max_priority_fee_per_gas * 1.05 * GAS_PRICE_MULTIPLIER)`,
then the defensive clamp
`if max_priority_fee_per_gas > max_fee_per_gas: max_priority_fee_per_gas = int(max_fee_per_gas * 0.95)`,
and `type = 2`.  `base_fee` is the value read from `eth.gas_price`,
`gas_price_multiplier` the configured `GAS_PRICE_MULTIPLIER`. -/
def prepare_transaction_fees (base_fee : ℕ) (rewards : List ℕ)
    (gas_price_multiplier : ℚ) : Eip1559Fees :=
  let max_priority_fee_per_gas : ℕ := get_priority_fee rewards
  let max_fee_per_gas : ℤ :=
    pyInt ((base_fee : ℚ) + (max_priority_fee_per_gas : ℚ) * 1.05 * gas_price_multiplier)
  let clamped : ℤ :=
    if (max_priority_fee_per_gas : ℤ) > max_fee_per_gas then
      pyInt ((max_fee_per_gas : ℚ) * 0.95)
    else (max_priority_fee_per_gas : ℤ)
  ⟨max_fee_per_gas, clamped, 2⟩

/-! ### Confirmation polling loop (`Web3Client.send_transaction`) -/

/-- One receipt lookup in the polling loop of `send_transaction`:
either `get_transaction_receipt` raises `TransactionNotFound`, or it returns a
receipt with `status` field (`none` models a receipt whose status is unset),
or some other exception occurs (`rpcError`). -/
inductive ReceiptPoll where
  | notFound
  | receipt (status : Option ℕ)
  | rpcError
  deriving Repr, DecidableEq

/-- Terminal outcome of the polling loop, carrying the number of sleep
intervals performed before termination. -/
inductive ConfirmOutcome where
  | confirmed (sleeps : ℕ)
  | txFailed (sleeps : ℕ)
  | timedOut (sleeps : ℕ)
  | exhausted
  deriving Repr, DecidableEq

/-- Shallow embedding of the `while True` polling loop of
`Web3Client.send_transaction`, driven by the sequence of receipt lookups.
State: `total_time` (the source's elapsed-time counter) and the number of
sleeps done so far.  Mirrors the source exactly:
* status `1`: return success;
* status unset: sleep and retry (`total_time` is not incremented);
* any other status: `BlockchainException` is raised and re-raised by the
  catch-all branch (its message contains `Transaction failed`);
* `TransactionNotFound`: if `total_time > timeout` raise, else add
  `poll_latency` to `total_time`, sleep, retry;
* any other exception: add `poll_latency`, sleep, retry. -/
def send_transaction_poll (poll_latency timeout : ℕ) :
    ℕ → ℕ → List ReceiptPoll → ConfirmOutcome
  | _, _, [] => .exhausted
  | total_time, sleeps, p :: ps =>
    match p with
    | .receipt (some status) =>
      if status = 1 then .confirmed sleeps else .txFailed sleeps
    | .receipt none => send_transaction_poll poll_latency timeout total_time (sleeps + 1) ps
    | .notFound =>
      if total_time > timeout then .timedOut sleeps
      else send_transaction_poll poll_latency timeout (total_time + poll_latency) (sleeps + 1) ps
    | .rpcError => send_transaction_poll poll_latency timeout (total_time + poll_latency) (sleeps + 1) ps

/-! ### Approval gate (`Web3Client.check_for_approved`, `Web3Client.make_approve`) -/

/-- An approval transaction issued through `make_approve`. -/
inductive ApproveAction where
  | approveTx (amount : ℕ)
  deriving Repr, DecidableEq

/-- Shallow embedding of `Web3Client.check_for_approved`.  Inputs: the
allowance read for `(owner, spender)` and the required amount.  If the
allowance suffices, the source returns `False` having issued no transaction.
Otherwise the source evaluates `self.make_approve()` — but `make_approve`
declares four parameters without defaults (`token_address`, `spender_address`,
`amount_in_wei`, `unlimited_approve`), so this call raises `TypeError`, which
the surrounding `except` wraps into `BlockchainException`.  No approval
transaction is ever issued on this path. -/
def check_for_approved (approved_amount_in_wei amount_in_wei : ℕ) :
    Except String (Bool × List ApproveAction) :=
  if approved_amount_in_wei ≥ amount_in_wei then
    Except.ok (false, [])
  else
    Except.error "BlockchainException: make_approve missing 4 required positional arguments"

/-- What `Web3Client.make_approve` submits when called with its four
arguments: approval for `2 ** 256 - 1` when `unlimited_approve` is set,
else the exact amount. -/
def make_approve_amount (amount_in_wei : ℕ) (unlimited_approve : Bool) : ℕ :=
  if unlimited_approve then 2 ^ 256 - 1 else amount_in_wei

/-! ### Unit conversion (`Web3Client.to_wei`, `Web3Client.from_wei`) -/

/-- The unit-name lookup table shared by `to_wei` and `from_wei`:
`{18: "ether", 6: "mwei"}[decimals]`; any other key raises `KeyError`
(modelled as `none`).  The value is the scale factor web3 assigns to the
unit (`ether` = 10^18, `mwei` = 10^6). -/
def unitFactor (decimals : ℕ) : Option ℕ :=
  match decimals with
  | 18 => some (10 ^ 18)
  | 6 => some (10 ^ 6)
  | _ => none

/-- Shallow embedding of `Web3Client.to_wei`: `w3.to_wei(int(number), unit)`,
i.e. truncate the human-scale amount to an integer first, then scale. -/
def to_wei (number : ℚ) (decimals : ℕ) : Option ℤ :=
  (unitFactor decimals).map (fun factor : ℕ => pyInt number * (factor : ℤ))

/-- Shallow embedding of `Web3Client.from_wei`: `w3.from_wei(number, unit)`,
exact decimal division of the smallest-unit amount by the unit factor. -/
def from_wei (number : ℤ) (decimals : ℕ) : Option ℚ :=
  (unitFactor decimals).map (fun factor : ℕ => (number : ℚ) / (factor : ℚ))

/-- The round trip of claim C5: `to_wei(from_wei(x, d), d)`. -/
def roundTrip (x : ℕ) (d : ℕ) : Option ℤ :=
  (from_wei (x : ℤ) d).bind (fun human => to_wei human d)

/-! ### `Web3Client.make_request` -/

/-- The parts of an `aiohttp` response that `make_request` inspects. -/
structure HttpResponse where
  status : ℕ
  contentType : Option (List Char)
  textBody : List Char
  jsonBody : List Char
  deriving Repr, DecidableEq

/-- Shallow embedding of `Web3Client.make_request`.  `json_arg` is the `json`
keyword parameter (the request body, a dict or `None`).  In the
`text/plain` branch the source evaluates `json.loads(text)` — but the local
parameter `json` shadows the `json` module, and neither a dict nor `None`
has a `loads` attribute, so the branch raises `AttributeError` instead of
parsing. -/
def make_request (json_arg : Option (List (List Char × List Char)))
    (response : HttpResponse) : Except (List Char) (List Char) :=
  if response.status = 200 ∨ response.status = 201 then
    if response.contentType = some ("text/plain").toList then
      Except.error ("AttributeError: the json parameter shadows the json module").toList
    else if response.contentType = some ("application/json").toList then
      Except.ok response.jsonBody
    else
      Except.error ("Exception: Unexpected content type").toList
  else
    Except.error ("Exception: Request failed").toList

end Web3Client

/-! ### Byte-level primitives: UTF-8, SHA-256, HMAC, base64 -/

/-- Python strings as lists of characters. -/
abbrev PyStr := List Char

/-- UTF-8 encoding of a single character. -/
def utf8EncodeChar (c : Char) : List ℕ :=
  let n := c.toNat
  if n < 128 then [n]
  else if n < 2048 then [192 + n / 64, 128 + n % 64]
  else if n < 65536 then [224 + n / 4096, 128 + n / 64 % 64, 128 + n % 64]
  else [240 + n / 262144, 128 + n / 4096 % 64, 128 + n / 64 % 64, 128 + n % 64]

/-- Python `s.encode("utf-8")`: the UTF-8 byte sequence of a string. -/
def utf8Encode (s : PyStr) : List ℕ :=
  s.foldr (fun c acc => utf8EncodeChar c ++ acc) []

/-- Truncated addition modulo 2^32. -/
def w32 (n : ℕ) : ℕ := n % 4294967296

/-- Right rotation of a 32-bit word. -/
def rotr32 (r x : ℕ) : ℕ := w32 ((x >>> r) ||| (x <<< (32 - r)))

/-- SHA-256 `Ch` function. -/
def shaCh (x y z : ℕ) : ℕ := (x &&& y) ^^^ ((x ^^^ 4294967295) &&& z)

/-- SHA-256 `Maj` function. -/
def shaMaj (x y z : ℕ) : ℕ := (x &&& y) ^^^ (x &&& z) ^^^ (y &&& z)

/-- SHA-256 big sigma 0. -/
def sigmaBig0 (x : ℕ) : ℕ := rotr32 2 x ^^^ rotr32 13 x ^^^ rotr32 22 x

/-- SHA-256 big sigma 1. -/
def sigmaBig1 (x : ℕ) : ℕ := rotr32 6 x ^^^ rotr32 11 x ^^^ rotr32 25 x

/-- SHA-256 small sigma 0. -/
def sigmaSmall0 (x : ℕ) : ℕ := rotr32 7 x ^^^ rotr32 18 x ^^^ (x >>> 3)

/-- SHA-256 small sigma 1. -/
def sigmaSmall1 (x : ℕ) : ℕ := rotr32 17 x ^^^ rotr32 19 x ^^^ (x >>> 10)

/-- The 64 SHA-256 round constants of FIPS 180-4 (here in decimal). -/
def shaK : List ℕ :=
  [1116352408, 1899447441, 3049323471, 3921009573,
   961987163, 1508970993, 2453635748, 2870763221,
   3624381080, 310598401, 607225278, 1426881987,
   1925078388, 2162078206, 2614888103, 3248222580,
   3835390401, 4022224774, 264347078, 604807628,
   770255983, 1249150122, 1555081692, 1996064986,
   2554220882, 2821834349, 2952996808, 3210313671,
   3336571891, 3584528711, 113926993, 338241895,
   666307205, 773529912, 1294757372, 1396182291,
   1695183700, 1986661051, 2177026350, 2456956037,
   2730485921, 2820302411, 3259730800, 3345764771,
   3516065817, 3600352804, 4094571909, 275423344,
   430227734, 506948616, 659060556, 883997877,
   958139571, 1322822218, 1537002063, 1747873779,
   1955562222, 2024104815, 2227730452, 2361852424,
   2428436474, 2756734187, 3204031479, 3329325298]

/-- The initial SHA-256 hash state (FIPS 180-4, in decimal). -/
def shaH0 : List ℕ :=
  [1779033703, 3144134277, 1013904242, 2773480762,
   1359893119, 2600822924, 528734635, 1541459225]

/-- Big-endian 4-byte groups to 32-bit words. -/
def bytesToWords : List ℕ → List ℕ
  | b0 :: b1 :: b2 :: b3 :: rest =>
    (b0 * 16777216 + b1 * 65536 + b2 * 256 + b3) :: bytesToWords rest
  | _ => []

/-- A 32-bit word to 4 big-endian bytes. -/
def wordToBytes (w : ℕ) : List ℕ :=
  [w / 16777216 % 256, w / 65536 % 256, w / 256 % 256, w % 256]

/-- SHA-256 padding: append `0x80`, zero bytes to 56 mod 64, and the 64-bit
big-endian bit length. -/
def shaPad (msg : List ℕ) : List ℕ :=
  let len := msg.length
  let bitLen := len * 8
  let zeros := (55 + 64 - len % 64) % 64
  msg ++ [128] ++ List.replicate zeros 0 ++
    [bitLen / 2 ^ 56 % 256, bitLen / 2 ^ 48 % 256, bitLen / 2 ^ 40 % 256, bitLen / 2 ^ 32 % 256,
     bitLen / 2 ^ 24 % 256, bitLen / 2 ^ 16 % 256, bitLen / 2 ^ 8 % 256, bitLen % 256]

/-- Split a byte list into 64-byte blocks. -/
def toBlocks : List ℕ → List (List ℕ)
  | [] => []
  | b :: rest => ((b :: rest).take 64) :: toBlocks ((b :: rest).drop 64)
termination_by l => l.length
decreasing_by simp [List.drop]; omega

/-- Extend the 16 words of a block to the 64-word message schedule. -/
def extendSchedule (ws : List ℕ) : List ℕ :=
  (List.range 48).foldl
    (fun w _ =>
      let n := w.length
      w ++ [w32 (sigmaSmall1 (w.getD (n - 2) 0) + w.getD (n - 7) 0 +
                 sigmaSmall0 (w.getD (n - 15) 0) + w.getD (n - 16) 0)])
    ws

/-- One round of the SHA-256 compression function on the 8-word state. -/
def compressStep (st : List ℕ) (kw : ℕ × ℕ) : List ℕ :=
  match st with
  | [a, b, c, d, e, f, g, h] =>
    let t1 := w32 (h + sigmaBig1 e + shaCh e f g + kw.1 + kw.2)
    let t2 := w32 (sigmaBig0 a + shaMaj a b c)
    [w32 (t1 + t2), a, b, c, w32 (d + t1), e, f, g]
  | other => other

/-- Process one 64-byte block into the running hash state. -/
def processBlock (h : List ℕ) (block : List ℕ) : List ℕ :=
  let w := extendSchedule (bytesToWords block)
  let st := (shaK.zip w).foldl compressStep h
  List.zipWith (fun x y => w32 (x + y)) h st

/-- SHA-256 of a byte sequence, as 32 bytes. -/
def sha256 (msg : List ℕ) : List ℕ :=
  ((toBlocks (shaPad msg)).foldl processBlock shaH0).foldr
    (fun w acc => wordToBytes w ++ acc) []

/-- HMAC-SHA256 (RFC 2104): block size 64 bytes. -/
def hmacSha256 (key msg : List ℕ) : List ℕ :=
  let key0 := if key.length > 64 then sha256 key else key
  let keyPadded := key0 ++ List.replicate (64 - key0.length) 0
  let ipadKey := keyPadded.map (fun b => b ^^^ 54)
  let opadKey := keyPadded.map (fun b => b ^^^ 92)
  sha256 (opadKey ++ sha256 (ipadKey ++ msg))

/-- The base64 alphabet. -/
def b64Alphabet : PyStr :=
  ("ABCDEFGHIJKLMNOPQRSTUVWXYZabcdefghijklmnopqrstuvwxyz0123456789+/").toList

/-- Look up a 6-bit value in the base64 alphabet. -/
def b64Char (i : ℕ) : Char := b64Alphabet.getD i (Char.ofNat 65)

/-- Standard base64 encoding of a byte sequence (with `=` padding), the
result of `base64.b64encode(...).decode("utf-8")`. -/
def base64encode : List ℕ → PyStr
  | [] => []
  | [b0] =>
    [b64Char (b0 >>> 2), b64Char ((b0 % 4) <<< 4), Char.ofNat 61, Char.ofNat 61]
  | [b0, b1] =>
    [b64Char (b0 >>> 2), b64Char (((b0 % 4) <<< 4) ||| (b1 >>> 4)),
     b64Char ((b1 % 16) <<< 2), Char.ofNat 61]
  | b0 :: b1 :: b2 :: rest =>
    [b64Char (b0 >>> 2), b64Char (((b0 % 4) <<< 4) ||| (b1 >>> 4)),
     b64Char (((b1 % 16) <<< 2) ||| (b2 >>> 6)), b64Char (b2 % 64)] ++ base64encode rest

/-! ### Python string helpers -/

/-- Python `str.upper` (ASCII case mapping suffices for the method names the
client signs). -/
def pyUpper (s : PyStr) : PyStr := s.map Char.toUpper

/-- Python string `≤` (lexicographic on code points), as used by `sort`. -/
def strLe : PyStr → PyStr → Bool
  | [], _ => true
  | _ :: _, [] => false
  | a :: as, b :: bs => if a < b then true else if b < a then false else strLe as bs

/-- Python string `<` (lexicographic on code points). -/
def strLt : PyStr → PyStr → Bool
  | [], [] => false
  | [], _ :: _ => true
  | _ :: _, [] => false
  | a :: as, b :: bs => if a < b then true else if b < a then false else strLt as bs

/-- Python `sep.join(parts)`. -/
def joinSep (sep : PyStr) : List PyStr → PyStr
  | [] => []
  | [x] => x
  | x :: y :: rest => x ++ sep ++ joinSep sep (y :: rest)

namespace BitgetClient

/-! ### Exchange request signing (`BitgetClient`)

A parameter dict is modelled as its `items()` list, key/value pairs of
strings in insertion order with distinct keys.  A POST payload is modelled as
its already-serialized JSON body (`json.dumps(data)`); `none` stands for
`data = None` (and for an empty, falsy dict). -/

/-- `param_list.sort(key=lambda x: x[0])`: Python stable sort by key. -/
def sortParams (params : List (PyStr × PyStr)) : List (PyStr × PyStr) :=
  params.mergeSort (fun a b => strLe a.1 b.1)

/-- Shallow embedding of `BitgetClient._parse_params_to_str`: empty dict gives
the empty string, otherwise sort the items by key, concatenate
`"?" + key + "=" + value + "&"` over the sorted items, and drop the final
character (the trailing `"&"`). -/
def parse_params_to_str (params : List (PyStr × PyStr)) : PyStr :=
  if params = [] then []
  else
    ((sortParams params).foldl
      (fun url p => url ++ p.1 ++ [Char.ofNat 61] ++ p.2 ++ [Char.ofNat 38])
      [Char.ofNat 63]).dropLast

/-- The canonical shape claimed for the query string: a leading `?`, the
sorted `key=value` pairs joined by `&`, no trailing separator, values
verbatim (not URL-encoded). -/
def queryOfSorted (sortedParams : List (PyStr × PyStr)) : PyStr :=
  [Char.ofNat 63] ++
    joinSep [Char.ofNat 38] (sortedParams.map (fun p => p.1 ++ [Char.ofNat 61] ++ p.2))

/-- Shallow embedding of `BitgetClient._generate_signature`: the message is
`str(timestamp) + str.upper(method) + request_path + body` where `body` is
the JSON payload for truthy `data` and `""` otherwise; the signature is
`base64.b64encode(hmac.new(secret.encode("utf-8"), message.encode("utf-8"), sha256).digest())`. -/
def generate_signature (api_secret request_path method timestamp : PyStr)
    (data : Option PyStr) : PyStr :=
  let body := data.getD []
  let message := timestamp ++ pyUpper method ++ request_path ++ body
  base64encode (hmacSha256 (utf8Encode api_secret) (utf8Encode message))

/-- Shallow embedding of the signature computed by `BitgetClient._get_headers`
(the `ACCESS-SIGN` header): for a GET request with truthy `params` the sorted
query string is appended to the path and no body is signed; otherwise the
plain path is signed together with `data`. -/
def get_headers_signature (api_secret path method : PyStr)
    (params : List (PyStr × PyStr)) (data : Option PyStr) (timestamp : PyStr) : PyStr :=
  if method = ("GET").toList ∧ params ≠ [] then
    generate_signature api_secret (path ++ parse_params_to_str params) method timestamp none
  else
    generate_signature api_secret path method timestamp data

/-- Modelled from the spec sentence: signature =
`base64(HMAC-SHA256(secret, timestamp + UPPERCASE(method) + path
[+ sorted "?key=value&..." query string for GET] [+ JSON body for POST]))`. -/
def spec_signature (api_secret timestamp method path : PyStr)
    (params : List (PyStr × PyStr)) (data : Option PyStr) : PyStr :=
  let query := if method = ("GET").toList ∧ params ≠ [] then
    queryOfSorted (sortParams params) else []
  let body := if method = ("POST").toList then data.getD [] else []
  base64encode (hmacSha256 (utf8Encode api_secret)
    (utf8Encode (timestamp ++ pyUpper method ++ path ++ query ++ body)))

/-- The request path used by `get_deposit_address`. -/
def depositPath : PyStr := ("/api/v2/spot/wallet/deposit-address").toList

/-- Shallow embedding of the inline signing in `BitgetClient.get_deposit_address`:
`params = {"coin": coin}` plus `"chain"` when given; `sorted(params.items())`;
`query_string = "&".join(f"{key}={value}" ...)`;
`message = timestamp + "GET" + path + "?" + query_string`; then
HMAC-SHA256 and base64 as in `_generate_signature`. -/
def get_deposit_address_signature (api_secret timestamp coin : PyStr)
    (chain : Option PyStr) : PyStr :=
  let params : List (PyStr × PyStr) :=
    (("coin").toList, coin) ::
      (match chain with
       | some c => [(("chain").toList, c)]
       | none => [])
  let sorted_params := sortParams params
  let query_string :=
    joinSep [Char.ofNat 38] (sorted_params.map (fun p => p.1 ++ [Char.ofNat 61] ++ p.2))
  let signature_path := depositPath ++ [Char.ofNat 63] ++ query_string
  let message := timestamp ++ ("GET").toList ++ signature_path
  base64encode (hmacSha256 (utf8Encode api_secret) (utf8Encode message))

/-- The deposit-address params dict, for stating the claim about
`get_deposit_address`. -/
def depositParams (coin : PyStr) (chain : Option PyStr) : List (PyStr × PyStr) :=
  (("coin").toList, coin) ::
    (match chain with
     | some c => [(("chain").toList, c)]
     | none => [])

end BitgetClient

namespace Pipeline

/-! ### Final pipeline step (`main.py`, step 6) -/

/-- What the last step of `main` does after reading the native balance. -/
inductive FinalStep where
  | halted
  | sendTx (valueWei : Option ℤ)
  deriving DecidableEq

/-- Shallow embedding of step 6 of `main`:
`eth_to_send = float(eth_balance) - 0.001`; if `eth_to_send <= 0` the
pipeline logs and returns, otherwise it prepares and submits a transaction
whose value is `web3_client.to_wei(eth_to_send)` (default 18 decimals). -/
def main_final_step (eth_balance : ℚ) : FinalStep :=
  let eth_to_send := eth_balance - 0.001
  if eth_to_send ≤ 0 then .halted
  else .sendTx (Web3Client.to_wei eth_to_send 18)

end Pipeline

/-! ## Claim theorems -/

/-- Stepping lemma for the polling loop: processing `k` not-found lookups that
all stay within the timeout budget adds `poll_latency` to the elapsed time and
one sleep per lookup. -/
theorem send_transaction_poll_notFound_steps :
    ∀ (k total_time sleeps : ℕ) (rest : List Web3Client.ReceiptPoll),
      (∀ i < k, total_time + 10 * i ≤ 360) →
      Web3Client.send_transaction_poll 10 360 total_time sleeps
          (List.replicate k .notFound ++ rest) =
        Web3Client.send_transaction_poll 10 360 (total_time + 10 * k) (sleeps + k) rest := by
  intro k
  induction k with
  | zero => intro total_time sleeps rest _; simp [List.replicate]
  | succ n ih =>
    intro total_time sleeps rest h
    rw [List.replicate_succ, List.cons_append]
    have h0 : total_time ≤ 360 := by simpa using h 0 (Nat.succ_pos n)
    rw [Web3Client.send_transaction_poll]
    rw [if_neg (by omega)]
    rw [ih (total_time + 10) (sleeps + 1) rest (by intro i hi; have := h (i + 1) (by omega); omega)]
    congr 1 <;> omega

/-- Claim C3: the confirmation polling loop of `send_transaction`, on the
receipt-lookup sequence [not-found, not-found, success], returns success after
exactly 2 sleep intervals; on a first lookup returning a failed receipt
(status 0) it raises immediately with no further polling; and on a run of only
not-found lookups it raises a timeout error once the accumulated poll
intervals exceed the 360 time-unit budget (after 37 sleeps of the default
10-unit interval) and performs no further polling, whatever lookups follow. -/
theorem claim_C3 :
    (∀ rest, Web3Client.send_transaction_poll 10 360 0 0
        (.notFound :: .notFound :: .receipt (some 1) :: rest) = .confirmed 2)
    ∧ (∀ rest, Web3Client.send_transaction_poll 10 360 0 0
        (.receipt (some 0) :: rest) = .txFailed 0)
    ∧ (∀ rest, Web3Client.send_transaction_poll 10 360 0 0
        (List.replicate 38 .notFound ++ rest) = .timedOut 37) := by
  refine ⟨fun rest => ?_, fun rest => ?_, fun rest => ?_⟩
  · simp [Web3Client.send_transaction_poll]
  · simp [Web3Client.send_transaction_poll]
  · have h38 : (38 : ℕ) = 37 + 1 := rfl
    rw [h38, List.replicate_add, List.append_assoc,
      send_transaction_poll_notFound_steps 37 0 0 _ (by intro i hi; omega)]
    simp [Web3Client.send_transaction_poll]

/-- Claim C4 (code evaluation): when the read allowance covers the required
amount, `check_for_approved` returns `False` having issued no approval
transaction; when it does not, the call `self.make_approve()` — which passes
none of the four required positional arguments — raises, wrapped as
`BlockchainException`, and no approval transaction is issued either, contrary
to the claim. -/
theorem claim_C4_code_eval :
    Web3Client.check_for_approved 5 3 = Except.ok (false, [])
    ∧ Web3Client.check_for_approved 0 1 =
        Except.error "BlockchainException: make_approve missing 4 required positional arguments"
    ∧ (∀ allowance amount : ℕ, allowance < amount →
        ∀ result, Web3Client.check_for_approved allowance amount ≠ Except.ok result) := by
  refine ⟨rfl, rfl, fun allowance amount h result => ?_⟩
  unfold Web3Client.check_for_approved
  rw [if_neg (by omega)]
  exact fun hcontra => Except.noConfusion hcontra

/-- Claim C9: in the final pipeline step, if the wallet balance minus the
0.001 reserved for gas is not positive, the pipeline halts without preparing
or submitting a transaction. -/
theorem claim_C9 (eth_balance : ℚ) (h : eth_balance - 0.001 ≤ 0) :
    Pipeline.main_final_step eth_balance = .halted := by
  unfold Pipeline.main_final_step
  exact if_pos h

/-- Witness for C9 at a concrete balance of exactly 0.001 ETH. -/
theorem claim_C9_witness : Pipeline.main_final_step 0.001 = .halted :=
  claim_C9 0.001 (by simp)

/-- Claim C10: for every 200/201 response with Content-Type `text/plain`,
`make_request` raises (the local parameter `json` shadows the `json` module,
so `json.loads` is an attribute error on a dict or `None`) instead of
returning parsed data, whatever the request body argument was. -/
theorem claim_C10 (json_arg : Option (List (List Char × List Char)))
    (r : Web3Client.HttpResponse)
    (h1 : r.status = 200 ∨ r.status = 201)
    (h2 : r.contentType = some ("text/plain").toList) :
    Web3Client.make_request json_arg r =
      Except.error ("AttributeError: the json parameter shadows the json module").toList := by
  unfold Web3Client.make_request
  rw [if_pos h1, if_pos h2]

/-- Witness for C10 at a concrete response. -/
theorem claim_C10_witness :
    Web3Client.make_request none ⟨200, some ("text/plain").toList, [], []⟩ =
      Except.error ("AttributeError: the json parameter shadows the json module").toList :=
  claim_C10 none ⟨200, some ("text/plain").toList, [], []⟩ (Or.inl rfl) rfl
/-- Claim C2: if every sampled priority-fee reward is zero the computed
average priority fee is zero (the divisor is clamped to 1, so no
division-by-zero fault), and for a non-negative configured multiplier the
returned record never has max-priority-fee above max-fee (the defensive 95%
clamp guarantees this). -/
theorem claim_C2 (base_fee : ℕ) (rewards : List ℕ) (m : ℚ) (hm : 0 ≤ m) :
    ((∀ r ∈ rewards, r = 0) → Web3Client.get_priority_fee rewards = 0)
    ∧ (Web3Client.prepare_transaction_fees base_fee rewards m).maxPriorityFeePerGas ≤
        (Web3Client.prepare_transaction_fees base_fee rewards m).maxFeePerGas := by
  constructor
  · intro hz
    unfold Web3Client.get_priority_fee
    have hfilter : rewards.filter (fun fee => fee ≠ 0) = [] := by
      rw [List.filter_eq_nil_iff]
      intro a ha
      simpa using hz a ha
    rw [hfilter]
    rfl
  · unfold Web3Client.prepare_transaction_fees
    set p : ℕ := Web3Client.get_priority_fee rewards with hp
    have harg : (0 : ℚ) ≤ (base_fee : ℚ) + (p : ℚ) * 1.05 * m := by positivity
    have hF : (0 : ℤ) ≤ pyInt ((base_fee : ℚ) + (p : ℚ) * 1.05 * m) := by
      rw [pyInt_eq_floor _ harg]
      exact Int.floor_nonneg.mpr harg
    set F : ℤ := pyInt ((base_fee : ℚ) + (p : ℚ) * 1.05 * m) with hFdef
    simp only
    by_cases hclamp : (p : ℤ) > F
    · rw [if_pos hclamp]
      have h95 : (0 : ℚ) ≤ (F : ℚ) * 0.95 := by
        have : (0 : ℚ) ≤ (F : ℚ) := by exact_mod_cast hF
        positivity
      rw [pyInt_eq_floor _ h95]
      calc ⌊(F : ℚ) * 0.95⌋ ≤ ⌊(F : ℚ)⌋ := by
            apply Int.floor_le_floor
            nlinarith [show (0:ℚ) ≤ (F : ℚ) from by exact_mod_cast hF]
        _ = F := Int.floor_intCast F
    · rw [if_neg hclamp]
      omega

/-- Witness for C2: all-zero rewards over 5 blocks, base fee 0, multiplier 2. -/
theorem claim_C2_witness :
    Web3Client.get_priority_fee [0, 0, 0, 0, 0] = 0
    ∧ (Web3Client.prepare_transaction_fees 0 [0, 0, 0, 0, 0] 2).maxPriorityFeePerGas ≤
        (Web3Client.prepare_transaction_fees 0 [0, 0, 0, 0, 0] 2).maxFeePerGas :=
  ⟨(claim_C2 0 [0, 0, 0, 0, 0] 2 zero_le_two).1 (by decide),
   (claim_C2 0 [0, 0, 0, 0, 0] 2 zero_le_two).2⟩

/-- Counterexample to claim C1: with base fee 100, five sampled 20th-percentile
rewards of 10 and multiplier 2, the code sets max-priority-fee to the plain
average 10 — not to `int(10 * 1.05 * 2) = 21` as the claim states — while
max-fee is `int(100 + 10 * 1.05 * 2) = 121`. -/
theorem claim_C1_counterexample :
    (Web3Client.prepare_transaction_fees 100 [10, 10, 10, 10, 10] 2).maxPriorityFeePerGas = 10
    ∧ (Web3Client.prepare_transaction_fees 100 [10, 10, 10, 10, 10] 2).maxFeePerGas = 121
    ∧ pyInt ((10 : ℚ) * 1.05 * 2) = 21
    ∧ (10 : ℤ) ≠ 21 := by
  have hpf : Web3Client.get_priority_fee [10, 10, 10, 10, 10] = 10 := by decide
  have key : ((100 : ℕ) : ℚ) + ((10 : ℕ) : ℚ) * 1.05 * 2 = ((121 : ℕ) : ℚ) := by
    push_cast
    norm_num
  have h21 : pyInt ((10 : ℚ) * 1.05 * 2) = 21 := by
    have h : (10 : ℚ) * 1.05 * 2 = ((21 : ℕ) : ℚ) := by
      push_cast
      norm_num
    rw [h, pyInt_natCast]
    norm_num
  have hfees : Web3Client.prepare_transaction_fees 100 [10, 10, 10, 10, 10] 2 = ⟨121, 10, 2⟩ := by
    unfold Web3Client.prepare_transaction_fees
    simp only [hpf, key, pyInt_natCast]
    norm_num
  rw [hfees]
  exact ⟨rfl, rfl, h21, by decide⟩

/-- Claim C1 as amended: in the EIP-1559 branch the transaction record has
type tag 2, max-fee equal to `int(base_fee + avg * 1.05 * multiplier)` where
`avg` is the rounded average of the non-zero 20th-percentile rewards of the
last 5 blocks, and max-priority-fee equal to that *unmultiplied* average
(for any multiplier ≥ 1 the defensive clamp never fires). -/
theorem claim_C1_amended (base_fee : ℕ) (rewards : List ℕ) (m : ℚ) (hm : 1 ≤ m) :
    (Web3Client.prepare_transaction_fees base_fee rewards m).maxPriorityFeePerGas =
      (Web3Client.get_priority_fee rewards : ℤ)
    ∧ (Web3Client.prepare_transaction_fees base_fee rewards m).maxFeePerGas =
      pyInt ((base_fee : ℚ) + (Web3Client.get_priority_fee rewards : ℚ) * 1.05 * m)
    ∧ (Web3Client.prepare_transaction_fees base_fee rewards m).txType = 2 := by
  unfold Web3Client.prepare_transaction_fees
  set p : ℕ := Web3Client.get_priority_fee rewards with hp
  have harg : (0 : ℚ) ≤ (base_fee : ℚ) + (p : ℚ) * 1.05 * m := by positivity
  have hle : ((p : ℤ) : ℚ) ≤ (base_fee : ℚ) + (p : ℚ) * 1.05 * m := by
    push_cast
    nlinarith [show (0:ℚ) ≤ (p : ℚ) from by positivity,
      show (0:ℚ) ≤ (base_fee : ℚ) from by positivity]
  have hnoclamp : ¬ ((p : ℤ) > pyInt ((base_fee : ℚ) + (p : ℚ) * 1.05 * m)) := by
    rw [pyInt_eq_floor _ harg]
    exact not_lt.mpr (Int.le_floor.mpr hle)
  refine ⟨?_, rfl, rfl⟩
  simp only
  rw [if_neg hnoclamp]

/-- Witness for C1 (amended) at base fee 100, rewards 10 over 5 blocks,
multiplier 2. -/
theorem claim_C1_witness :
    (Web3Client.prepare_transaction_fees 100 [10, 10, 10, 10, 10] 2).maxPriorityFeePerGas =
      (Web3Client.get_priority_fee [10, 10, 10, 10, 10] : ℤ)
    ∧ (Web3Client.prepare_transaction_fees 100 [10, 10, 10, 10, 10] 2).maxFeePerGas =
      pyInt ((100 : ℚ) + (Web3Client.get_priority_fee [10, 10, 10, 10, 10] : ℚ) * 1.05 * 2)
    ∧ (Web3Client.prepare_transaction_fees 100 [10, 10, 10, 10, 10] 2).txType = 2 :=
  claim_C1_amended 100 [10, 10, 10, 10, 10] 2 one_le_two

/-- Evaluation of the unit-conversion round trip on the two supported decimal
counts: `to_wei` truncates the human-scale amount with `int(...)` before
scaling, so the result is `x` rounded down to a whole multiple of `10 ^ d`. -/
theorem roundTrip_eval (x : ℕ) (d : ℕ) (hd : d = 6 ∨ d = 18) :
    Web3Client.roundTrip x d = some ((x / 10 ^ d * 10 ^ d : ℕ) : ℤ) := by
  have hfloor : ∀ f : ℕ, pyInt (((x : ℤ) : ℚ) / ((f : ℕ) : ℚ)) = ((x / f : ℕ) : ℤ) := by
    intro f
    rw [pyInt_eq_floor _ (by positivity), Int.cast_natCast]
    exact_mod_cast Rat.floor_natCast_div_natCast x f
  rcases hd with h | h <;> subst h <;>
    simp only [Web3Client.roundTrip, Web3Client.from_wei, Web3Client.to_wei,
      Web3Client.unitFactor, Option.map_some', Option.some_bind] <;>
    rw [hfloor] <;>
    push_cast <;>
    ring_nf

/-- Counterexample to claim C5: one wei of an 18-decimals amount does not
survive the round trip — `from_wei(1, 18)` is `10⁻¹⁸`, and `to_wei` truncates
it with `int(...)` to `0` before scaling. -/
theorem claim_C5_counterexample :
    Web3Client.roundTrip 1 18 = some 0 ∧ (some (0 : ℤ) ≠ some (1 : ℤ)) := by
  refine ⟨?_, by decide⟩
  rw [roundTrip_eval 1 18 (Or.inr rfl)]
  norm_num

/-- Claim C5 as amended: for the two supported decimal counts 6 and 18 the
round trip `to_wei(from_wei(x, d), d)` returns `x` exactly when `x` is a
whole multiple of `10 ^ d` (otherwise the fractional part is truncated); any
other decimal count raises `KeyError` in the `{18: "ether", 6: "mwei"}`
lookup, so the conversion never returns a value at all. -/
theorem claim_C5_amended (x d : ℕ) :
    ((d = 6 ∨ d = 18) →
      (Web3Client.roundTrip x d = some (x : ℤ) ↔ (10 ^ d : ℕ) ∣ x))
    ∧ (¬(d = 6 ∨ d = 18) → Web3Client.roundTrip x d = none) := by
  constructor
  · intro hd
    rw [roundTrip_eval x d hd]
    constructor
    · intro h
      have hx : x / 10 ^ d * 10 ^ d = x := by exact_mod_cast Option.some_injective _ h
      exact ⟨x / 10 ^ d, by rw [Nat.mul_comm] at hx; exact hx.symm⟩
    · intro h
      rw [Nat.div_mul_cancel h]
  · intro hd
    have hu : Web3Client.unitFactor d = none := by
      unfold Web3Client.unitFactor
      split
      · exact absurd (Or.inr rfl) hd
      · exact absurd (Or.inl rfl) hd
      · rfl
    simp [Web3Client.roundTrip, Web3Client.from_wei, hu]

/-- Witness for C5 (amended): 2 whole USDC (6 decimals) round-trips, and a
decimal count of 7 is rejected. -/
theorem claim_C5_witness :
    (Web3Client.roundTrip 2000000 6 = some (2000000 : ℤ) ↔ (10 ^ 6 : ℕ) ∣ 2000000)
    ∧ Web3Client.roundTrip 1 7 = none :=
  ⟨(claim_C5_amended 2000000 6).1 (Or.inl rfl),
   (claim_C5_amended 1 7).2 (by decide)⟩

/-- `strLe` is total. -/
theorem strLe_total (a : PyStr) : ∀ b : PyStr, strLe a b || strLe b a := by
  induction a with
  | nil => intro b; simp [strLe]
  | cons x xs ih =>
    intro b
    match b with
    | [] => simp [strLe]
    | y :: ys =>
      simp only [strLe]
      rcases lt_trichotomy x y with h | h | h
      · simp [h]
      · subst h
        simp only [lt_irrefl, if_false]
        exact ih ys
      · simp [h, lt_asymm h]

/-- `strLe` is transitive. -/
theorem strLe_trans (a : PyStr) :
    ∀ b c : PyStr, strLe a b = true → strLe b c = true → strLe a c = true := by
  induction a with
  | nil => intro b c _ _; rfl
  | cons x xs ih =>
    intro b c hab hbc
    match b, c with
    | [], _ => simp [strLe] at hab
    | _ :: _, [] => simp [strLe] at hbc
    | y :: ys, z :: zs =>
      simp only [strLe] at hab hbc ⊢
      rcases lt_trichotomy x y with hxy | hxy | hxy
      · rcases lt_trichotomy y z with hyz | hyz | hyz
        · simp [lt_trans hxy hyz]
        · subst hyz; simp [hxy]
        · rw [if_neg (lt_asymm hyz), if_pos hyz] at hbc
          exact absurd hbc (by simp)
      · subst hxy
        rcases lt_trichotomy x z with hxz | hxz | hxz
        · simp [hxz]
        · subst hxz
          simp only [lt_irrefl, if_false] at hab hbc ⊢
          exact ih ys zs hab hbc
        · rw [if_neg (lt_asymm hxz), if_pos hxz] at hbc
          exact absurd hbc (by simp)
      · rw [if_neg (lt_asymm hxy), if_pos hxy] at hab
        exact absurd hab (by simp)

/-- A weak inequality between distinct strings is strict. -/
theorem strLt_of_strLe_of_ne (a : PyStr) :
    ∀ b : PyStr, strLe a b = true → a ≠ b → strLt a b = true := by
  induction a with
  | nil =>
    intro b _ hne
    match b with
    | [] => exact absurd rfl hne
    | y :: ys => rfl
  | cons x xs ih =>
    intro b hle hne
    match b with
    | [] => simp [strLe] at hle
    | y :: ys =>
      simp only [strLe] at hle
      simp only [strLt]
      rcases lt_trichotomy x y with hxy | hxy | hxy
      · simp [hxy]
      · subst hxy
        simp only [lt_irrefl, if_false] at hle ⊢
        exact ih ys hle (fun h => hne (by rw [h]))
      · rw [if_neg (lt_asymm hxy), if_pos hxy] at hle
        exact absurd hle (by simp)

/-- The accumulator loop of `_parse_params_to_str`, in closed form: it
produces the `key=value` pairs joined by `&` with one trailing `&`. -/
theorem parse_params_foldl (ps : List (PyStr × PyStr)) (h : ps ≠ []) :
    ∀ acc : PyStr,
      ps.foldl (fun url p => url ++ p.1 ++ [Char.ofNat 61] ++ p.2 ++ [Char.ofNat 38]) acc =
        acc ++ joinSep [Char.ofNat 38] (ps.map (fun p => p.1 ++ [Char.ofNat 61] ++ p.2)) ++
          [Char.ofNat 38] := by
  induction ps with
  | nil => exact absurd rfl h
  | cons p rest ih =>
    intro acc
    match rest with
    | [] => simp [joinSep, List.append_assoc]
    | q :: rest2 =>
      rw [List.foldl_cons, ih (by simp)]
      simp [joinSep, List.append_assoc]

/-- `_parse_params_to_str` on a non-empty dict equals the canonical form: a
leading `?`, the sorted pairs joined by `&`, and no trailing separator. -/
theorem parse_params_eq_query (params : List (PyStr × PyStr)) (h : params ≠ []) :
    BitgetClient.parse_params_to_str params =
      BitgetClient.queryOfSorted (BitgetClient.sortParams params) := by
  have hs : BitgetClient.sortParams params ≠ [] := by
    intro hnil
    have hperm : List.Perm (BitgetClient.sortParams params) params :=
      List.mergeSort_perm params _
    rw [hnil] at hperm
    exact h (List.Perm.nil_eq hperm).symm
  unfold BitgetClient.parse_params_to_str
  rw [if_neg h, parse_params_foldl _ hs]
  rw [BitgetClient.queryOfSorted]
  exact List.dropLast_concat

/-- Claim C6: for every non-empty parameter dict (distinct keys),
`_parse_params_to_str` produces the canonical query string — sorted pairs
joined by `&` after a leading `?`, with values verbatim (not URL-encoded) and
no trailing separator — and the keys of the sorted pair list are in strictly
ascending lexicographic order. -/
theorem claim_C6 (params : List (PyStr × PyStr)) (hne : params ≠ [])
    (hnd : (params.map Prod.fst).Nodup) :
    BitgetClient.parse_params_to_str params =
      BitgetClient.queryOfSorted (BitgetClient.sortParams params)
    ∧ ((BitgetClient.sortParams params).map Prod.fst).Pairwise
        (fun a b => strLt a b = true) := by
  refine ⟨parse_params_eq_query params hne, ?_⟩
  have hsorted : (BitgetClient.sortParams params).Pairwise
      (fun a b => strLe a.1 b.1 = true) :=
    List.sorted_mergeSort
      (fun a b c hab hbc => strLe_trans a.1 b.1 c.1 hab hbc)
      (fun a b => strLe_total a.1 b.1)
      params
  have hkeysLe : ((BitgetClient.sortParams params).map Prod.fst).Pairwise
      (fun a b => strLe a b = true) :=
    (List.pairwise_map).mpr hsorted
  have hkeysNodup : ((BitgetClient.sortParams params).map Prod.fst).Nodup := by
    have hperm : List.Perm ((BitgetClient.sortParams params).map Prod.fst)
        (params.map Prod.fst) :=
      (List.mergeSort_perm params _).map Prod.fst
    exact hperm.nodup_iff.mpr hnd
  have hcombined := List.Pairwise.and hkeysLe hkeysNodup
  exact hcombined.imp (fun h => strLt_of_strLe_of_ne _ _ h.1 h.2)

/-- Witness for C6 at a concrete two-entry dict given in reverse key order. -/
theorem claim_C6_witness :
    BitgetClient.parse_params_to_str
        [(("coin").toList, ("ETH").toList), (("chain").toList, ("ARBITRUM").toList)] =
      BitgetClient.queryOfSorted (BitgetClient.sortParams
        [(("coin").toList, ("ETH").toList), (("chain").toList, ("ARBITRUM").toList)])
    ∧ ((BitgetClient.sortParams
        [(("coin").toList, ("ETH").toList), (("chain").toList, ("ARBITRUM").toList)]).map
          Prod.fst).Pairwise (fun a b => strLt a b = true) :=
  claim_C6 _ (by decide) (by decide)

/-- Claim C7 as amended: the signature function is deterministic — it is a
pure function of its inputs, so identical inputs always produce identical
signatures — but a changed input byte changes the signature only if it
changes the canonical message `timestamp + method.upper() + path + body`:
two methods that differ only in letter case (one changed byte) sign
identically.  Determinism is the special case `method1 = method2`. -/
theorem claim_C7 (api_secret request_path timestamp : PyStr) (data : Option PyStr)
    (method1 method2 : PyStr) (h : pyUpper method1 = pyUpper method2) :
    BitgetClient.generate_signature api_secret request_path method1 timestamp data =
      BitgetClient.generate_signature api_secret request_path method2 timestamp data := by
  unfold BitgetClient.generate_signature
  rw [h]

/-- Counterexample to claim C7 as stated: the one-byte change `GET` → `GEt`
in the method leaves the signature unchanged, because `_generate_signature`
upper-cases the method before signing. -/
theorem claim_C7_counterexample :
    BitgetClient.generate_signature ("secret").toList
        ("/api/v2/spot/wallet/deposit-address").toList ("GEt").toList
        ("1700000000000").toList none =
      BitgetClient.generate_signature ("secret").toList
        ("/api/v2/spot/wallet/deposit-address").toList ("GET").toList
        ("1700000000000").toList none
    ∧ ("GEt").toList ≠ ("GET").toList := by
  constructor
  · unfold BitgetClient.generate_signature
    rw [show pyUpper (("GEt").toList) = pyUpper (("GET").toList) from by decide]
  · decide

/-- Witness for C7 at the same concrete inputs. -/
theorem claim_C7_witness :
    BitgetClient.generate_signature ("secret").toList ("/api").toList
        ("get").toList ("1700000000000").toList none =
      BitgetClient.generate_signature ("secret").toList ("/api").toList
        ("GET").toList ("1700000000000").toList none :=
  claim_C7 ("secret").toList ("/api").toList ("1700000000000").toList none
    ("get").toList ("GET").toList (by decide)

/-- Claim C8: for every request the client issues (a GET carries no JSON
body; a POST signs its body), the `ACCESS-SIGN` header value computed by
`_get_headers` equals the spec formula
`base64(HMAC-SHA256(secret, timestamp + UPPERCASE(method) + path
[+ sorted query string for GET with params] [+ JSON body for POST]))`,
and the inline signing in `get_deposit_address` also matches that formula
for its GET request with the coin/chain parameters. -/
theorem claim_C8 (api_secret path timestamp : PyStr)
    (params : List (PyStr × PyStr)) (data : Option PyStr) (method : PyStr)
    (h : (method = ("GET").toList ∧ data = none) ∨ method = ("POST").toList)
    (coin : PyStr) (chain : Option PyStr) :
    BitgetClient.get_headers_signature api_secret path method params data timestamp =
      BitgetClient.spec_signature api_secret timestamp method path params data
    ∧ BitgetClient.get_deposit_address_signature api_secret timestamp coin chain =
      BitgetClient.spec_signature api_secret timestamp ("GET").toList
        BitgetClient.depositPath (BitgetClient.depositParams coin chain) none := by
  constructor
  · rcases h with ⟨hget, hdata⟩ | hpost
    · subst hget hdata
      by_cases hp : params = []
      · subst hp
        unfold BitgetClient.get_headers_signature BitgetClient.spec_signature
          BitgetClient.generate_signature
        simp
      · unfold BitgetClient.get_headers_signature BitgetClient.spec_signature
          BitgetClient.generate_signature
        rw [if_pos ⟨rfl, hp⟩, if_pos ⟨rfl, hp⟩]
        rw [parse_params_eq_query params hp]
        simp [List.append_assoc]
    · subst hpost
      unfold BitgetClient.get_headers_signature BitgetClient.spec_signature
        BitgetClient.generate_signature
      rw [if_neg (fun hc => absurd hc.1 (by decide)),
        if_neg (fun hc => absurd hc.1 (by decide)), if_pos rfl]
      simp
  · unfold BitgetClient.get_deposit_address_signature BitgetClient.spec_signature
      BitgetClient.depositParams BitgetClient.queryOfSorted
    rw [if_pos ⟨rfl, by simp⟩, if_neg (by decide)]
    simp [List.append_assoc, pyUpper]

/-- Witness for C8: a POST request with a body, and a deposit-address GET for
ETH on chain ARBITRUM. -/
theorem claim_C8_witness :
    BitgetClient.get_headers_signature ("secret").toList
        ("/api/v2/spot/wallet/withdrawal").toList ("POST").toList []
        (some ("{}").toList) ("1700000000000").toList =
      BitgetClient.spec_signature ("secret").toList ("1700000000000").toList
        ("POST").toList ("/api/v2/spot/wallet/withdrawal").toList []
        (some ("{}").toList)
    ∧ BitgetClient.get_deposit_address_signature ("secret").toList
        ("1700000000000").toList ("ETH").toList (some ("ARBITRUM").toList) =
      BitgetClient.spec_signature ("secret").toList ("1700000000000").toList
        ("GET").toList BitgetClient.depositPath
        (BitgetClient.depositParams ("ETH").toList (some ("ARBITRUM").toList)) none :=
  claim_C8 ("secret").toList ("/api/v2/spot/wallet/withdrawal").toList
    ("1700000000000").toList [] (some ("{}").toList) ("POST").toList
    (Or.inr rfl) ("ETH").toList (some ("ARBITRUM").toList)

/-- Witness for the C4 code evaluation: with allowance 0 and required amount
1, the gate does not return success. -/
theorem claim_C4_witness :
    Web3Client.check_for_approved 0 1 ≠ Except.ok (false, []) :=
  claim_C4_code_eval.2.2 0 1 (by decide) (false, [])
